import Mathlib

/-!
Verification of the camera abstraction layer of the faceAPI camera types
(src/src/game/client/facesdk/include/sm_api_cameratypes.h).

The repository exposes only the type contracts (a C header); the routines the
header declares (smCameraCreateInfoList, smCameraCreate, frame production) are
implemented outside the repository.  Types are embedded directly from the
header; each behavioural definition is modelled from the spec and marked as
such in its doc comment.

Embedding conventions: C `int` fields become `Int`; C `unsigned int` values
are natural numbers reduced modulo 2^32 where the width matters; optional
pointer fields (`T *x`, "can be 0") become `Option`; `float`/`double` become
`ℚ` (their values are only carried, never computed with); opaque handles from
other headers (`smStringHandle`, `smImageHandle`, `smTime`, `smImageCode`)
become plain scalar types.
-/

/-- Embeds `SM_API_CAMERA_DEFAULT_FIFO_LEN` (header line 26): the default
frame-FIFO length, `#define`d as the literal 2147483647 ("Defined as INT_MAX"). -/
def SM_API_CAMERA_DEFAULT_FIFO_LEN : Nat := 2147483647

/-- Modulus of C `unsigned int` arithmetic (32-bit): 2^32. -/
def UINT_MOD : Nat := 4294967296

/-- Embeds the C enum `smCameraType` (header lines 40-47). -/
inductive smCameraType where
  | SM_API_CAMERA_TYPE_WDM
  | SM_API_CAMERA_TYPE_PTGREY
  | SM_API_CAMERA_TYPE_IMAGE_PUSH
  | SM_API_CAMERA_TYPE_FILE
deriving DecidableEq, Repr

/-- Embeds `SM_API_CAMERA_NUM_TYPES`: the number of supported camera types. -/
def SM_API_CAMERA_NUM_TYPES : Nat := 4

/-- Embeds `smSize2i` (from the companion types header): a 2-D integer size. -/
structure smSize2i where
  w : Int
  h : Int
deriving DecidableEq, Repr

/-- Embeds `smCoord2d` (from the companion types header): a 2-D coordinate. -/
structure smCoord2d where
  x : ℚ
  y : ℚ
deriving DecidableEq, Repr

/-- Embeds `smCameraVideoFormat` (header lines 55-61).  `smImageCode` is an
opaque enum code, carried as a `Nat`. -/
structure smCameraVideoFormat where
  res : smSize2i
  format : Nat
  framerate : ℚ
  is_upside_down : Bool
deriving DecidableEq, Repr

/-- Embeds `smCameraInfo` (header lines 74-83).  The C pair
(`num_formats : int`, `formats : smCameraVideoFormat *`) is embedded as an
`Int` count plus a list; the header documents `formats` as
"Array of video formats, or 0 if num_formats == 0", so the null pointer is
the empty list.  The internal-use `__vec` field is bookkeeping for release
and carries no observable data, so it is omitted. -/
structure smCameraInfo where
  type : smCameraType
  model : String
  instance_index : Int
  num_formats : Int
  preferred_format_index : Int
  formats : List smCameraVideoFormat
deriving DecidableEq, Repr

/-- Embeds `smCameraInfoList` (header lines 91-96): the C pair
(`num_cameras : int`, `info : smCameraInfo *`) as count plus list; the header
documents `info` as "Array of smCameraInfo ... or 0 if num_cameras == 0". -/
structure smCameraInfoList where
  num_cameras : Int
  info : List smCameraInfo
deriving DecidableEq, Repr

/-- Embeds `smCameraLensParams` (header lines 105-116). -/
structure smCameraLensParams where
  focal_len : smCoord2d
  principal_point : smCoord2d
  skew : ℚ
  k1 : ℚ
  k2 : ℚ
  k3 : ℚ
  k4 : ℚ
  k5 : ℚ
  calib_res : smSize2i
deriving DecidableEq, Repr

/-- Embeds `smCameraSettings` (header lines 122-135): all three fields are
optional pointers ("can be 0"), embedded as `Option`. -/
structure smCameraSettings where
  lens_params : Option smCameraLensParams
  approx_fov_deg : Option Int
  format_index : Option Int
deriving DecidableEq, Repr

/-- Embeds `smCameraVideoFrame` (header lines 138-143).  `frame_num` is a C
`unsigned int`, embedded as a `Nat` kept below `UINT_MOD`; `image_handle` and
`time` are opaque scalars (`smImageHandle`, `smTime` in ms). -/
structure smCameraVideoFrame where
  image_handle : Nat
  frame_num : Nat
  time : Nat
deriving DecidableEq, Repr

/-- Error taxonomy of the API surface (spec section 7). -/
inductive smApiError where
  | invalid_parameter
  | resource_exhausted
  | device_unavailable
  | backend_fault
deriving DecidableEq, Repr

/-- The lens model chosen by settings resolution: the caller's override, a
model synthesized from an approximate field-of-view, or the backend default. -/
inductive LensChoice where
  | override (lp : smCameraLensParams)
  | fromFov (fov : Int)
  | backendDefault
deriving DecidableEq, Repr

/-- A fully-resolved camera configuration: the chosen lens model and the
chosen format index into the descriptor's format array. -/
structure ResolvedSettings where
  lens : LensChoice
  format_index : Int
deriving DecidableEq, Repr

/-- Modelled from the spec: the lens-model precedence of settings resolution
(spec section 4.2, header lines 124-130) — the implementation of
`smCameraCreate` is not in the repository.  A present `lens_params` override
is used; otherwise a present `approx_fov_deg` synthesizes a lens model;
otherwise the backend default is synthesized. -/
def resolveLens (s : smCameraSettings) : LensChoice :=
  match s.lens_params with
  | some lp => LensChoice.override lp
  | none =>
    match s.approx_fov_deg with
    | some v => LensChoice.fromFov v
    | none => LensChoice.backendDefault

/-- Modelled from the spec: format selection of settings resolution (spec
section 4.2, header lines 131-134) — the implementation of `smCameraCreate`
is not in the repository.  A present `format_index` must lie in
`[0, num_formats-1]`; an absent one falls back to the descriptor's
`preferred_format_index`, which exists only when `num_formats > 0`. -/
def resolveFormatIndex (info : smCameraInfo) (s : smCameraSettings) :
    Except smApiError Int :=
  match s.format_index with
  | some i =>
    if 0 ≤ i ∧ i < info.num_formats then Except.ok i
    else Except.error smApiError.invalid_parameter
  | none =>
    if 0 < info.num_formats then Except.ok info.preferred_format_index
    else Except.error smApiError.invalid_parameter

/-- Modelled from the spec: full settings resolution (spec section 4.2,
spec section 8, header lines 122-135) — the implementation of
`smCameraCreate` is not in the repository.  A present approximate
field-of-view outside `[1,179]` degrees is an invalid parameter (spec
section 8 states this for all settings carrying one); then the lens model is
chosen by precedence and the format index is selected. -/
def resolveSettings (info : smCameraInfo) (s : smCameraSettings) :
    Except smApiError ResolvedSettings :=
  match s.approx_fov_deg with
  | some v =>
    if 1 ≤ v ∧ v ≤ 179 then
      match resolveFormatIndex info s with
      | Except.ok i => Except.ok { lens := resolveLens s, format_index := i }
      | Except.error e => Except.error e
    else Except.error smApiError.invalid_parameter
  | none =>
    match resolveFormatIndex info s with
    | Except.ok i => Except.ok { lens := resolveLens s, format_index := i }
    | Except.error e => Except.error e

/-- Modelled from the spec: the descriptors contributed by a discovery scan
(spec section 4.1) — the implementation of `smCameraCreateInfoList` is not in
the repository.  One probe result per backend category; a failing probe is
isolated and contributes nothing, a succeeding probe contributes its
descriptors in order. -/
def okInfos : List (Except Unit (List smCameraInfo)) → List smCameraInfo
  | [] => []
  | Except.ok l :: ps => l ++ okInfos ps
  | Except.error _ :: ps => okInfos ps

/-- Modelled from the spec: the camera count computed by a discovery scan
(spec section 4.1, header line 93) — the implementation of
`smCameraCreateInfoList` is not in the repository.  The count is accumulated
per successful backend probe. -/
def scanCount : List (Except Unit (List smCameraInfo)) → Int
  | [] => 0
  | Except.ok l :: ps => (l.length : Int) + scanCount ps
  | Except.error _ :: ps => scanCount ps

/-- Modelled from the spec: `smCameraCreateInfoList` (spec section 4.1,
header lines 85-96) — its implementation is not in the repository.  Scans the
backend categories (given as probe results) and returns the frozen descriptor
list. -/
def smCameraCreateInfoList (probes : List (Except Unit (List smCameraInfo))) :
    smCameraInfoList :=
  { num_cameras := scanCount probes, info := okInfos probes }

/-- A live camera session of the process: its stable lookup key and the
category of camera it was opened from. -/
structure Session where
  sid : Nat
  ctype : smCameraType
deriving DecidableEq, Repr

/-- Process-wide session state: the next fresh session key and the sessions
currently Open. -/
structure ProcState where
  nextSid : Nat
  openSessions : List Session
deriving DecidableEq, Repr

/-- The initial process-wide state: no session open. -/
def initState : ProcState := { nextSid := 0, openSessions := [] }

/-- Number of Open sessions of the industrial (PointGrey) category. -/
def ptgreyOpenCount (st : ProcState) : Nat :=
  (st.openSessions.filter
    (fun t => t.ctype = smCameraType.SM_API_CAMERA_TYPE_PTGREY)).length

/-- Modelled from the spec: `smCameraCreate` session opening (spec
section 4.3, header line 43) — its implementation is not in the repository.
The PointGrey singleton limitation fails fast with resource-exhausted before
any resource acquisition; then the settings are resolved (invalid settings
fail fast with their own error); a successful open adds an Open session under
a fresh key. -/
def smCameraCreate (st : ProcState) (info : smCameraInfo) (s : smCameraSettings) :
    Except smApiError (ProcState × Nat) :=
  if info.type = smCameraType.SM_API_CAMERA_TYPE_PTGREY ∧ 0 < ptgreyOpenCount st then
    Except.error smApiError.resource_exhausted
  else
    match resolveSettings info s with
    | Except.error e => Except.error e
    | Except.ok _ =>
      Except.ok
        ({ nextSid := st.nextSid + 1,
           openSessions := { sid := st.nextSid, ctype := info.type } :: st.openSessions },
         st.nextSid)

/-- Modelled from the spec: session close / `smCameraDestroy` (spec
section 4.3) — its implementation is not in the repository.  Removes the
session with the given key from the Open set. -/
def smCameraDestroy (st : ProcState) (sid : Nat) : ProcState :=
  { st with openSessions := st.openSessions.filter (fun t => t.sid ≠ sid) }

/-- A process-wide command: open a session from a descriptor and settings, or
close a session by key. -/
inductive Cmd where
  | create (info : smCameraInfo) (s : smCameraSettings)
  | destroy (sid : Nat)

/-- One step of the process-wide state machine: a failing open leaves the
state unchanged. -/
def exec (st : ProcState) : Cmd → ProcState
  | Cmd.create info s =>
    match smCameraCreate st info s with
    | Except.ok (st2, _) => st2
    | Except.error _ => st
  | Cmd.destroy sid => smCameraDestroy st sid

/-- The reachable state after running a command sequence from the initial
state. -/
def run (cmds : List Cmd) : ProcState := cmds.foldl exec initState

/-- A backend capture event delivered to an open session: a captured image
with its exposure timestamp, or an explicitly signalled frame drop. -/
inductive BackendEvent where
  | capture (t : Nat)
  | drop
deriving DecidableEq, Repr

/-- The exposure timestamps of the capture events, in order. -/
def eventTimes : List BackendEvent → List Nat
  | [] => []
  | BackendEvent.capture t :: es => t :: eventTimes es
  | BackendEvent.drop :: es => eventTimes es

/-- Modelled from the spec: frame production of an open session (spec
section 4.4, header lines 137-143) — the production routine is not in the
repository.  The session keeps a running counter starting at an
implementation-defined origin; a capture event emits a `smCameraVideoFrame`
whose `frame_num` is the counter reduced modulo 2^32 (C `unsigned int`) and
whose `time` is the exposure timestamp; an explicitly signalled drop consumes
a counter value without emitting, so the gap stays observable. -/
def produceFrames (n : Nat) : List BackendEvent → List smCameraVideoFrame
  | [] => []
  | BackendEvent.capture t :: es =>
    { image_handle := n, frame_num := n % UINT_MOD, time := t } :: produceFrames (n + 1) es
  | BackendEvent.drop :: es => produceFrames (n + 1) es

/-- The relation between consecutive produced frames: the frame number steps
by exactly 1 (in 32-bit unsigned arithmetic) and the timestamp does not
decrease. -/
def FrameStep (a b : smCameraVideoFrame) : Prop :=
  b.frame_num = (a.frame_num + 1) % UINT_MOD ∧ a.time ≤ b.time

/-- A concrete video format used as a test fixture. -/
def testFormat : smCameraVideoFormat :=
  { res := { w := 640, h := 480 }, format := 0, framerate := 30,
    is_upside_down := false }

/-- A concrete webcam descriptor with one supported format, used as a test
fixture. -/
def testInfo : smCameraInfo :=
  { type := smCameraType.SM_API_CAMERA_TYPE_WDM, model := "Test Webcam",
    instance_index := 0, num_formats := 1, preferred_format_index := 0,
    formats := [testFormat] }

/-- A concrete PointGrey descriptor, used as a test fixture. -/
def testInfoPtg : smCameraInfo :=
  { testInfo with type := smCameraType.SM_API_CAMERA_TYPE_PTGREY }

/-- A concrete descriptor with no supported formats, used as a test fixture. -/
def testInfoNoFormats : smCameraInfo :=
  { type := smCameraType.SM_API_CAMERA_TYPE_WDM, model := "Bare Device",
    instance_index := 1, num_formats := 0, preferred_format_index := 0,
    formats := [] }

/-- A concrete lens-parameter record, used as a test fixture. -/
def testLens : smCameraLensParams :=
  { focal_len := { x := 500, y := 500 }, principal_point := { x := 320, y := 240 },
    skew := 0, k1 := 0, k2 := 0, k3 := 0, k4 := 0, k5 := 0,
    calib_res := { w := 640, h := 480 } }

/-- Settings with every optional field absent, used as a test fixture. -/
def noSettings : smCameraSettings :=
  { lens_params := none, approx_fov_deg := none, format_index := none }

/-- Settings carrying only an approximate field-of-view, used as a test
fixture. -/
def fovSettings (v : Int) : smCameraSettings :=
  { lens_params := none, approx_fov_deg := some v, format_index := none }

/-- Settings carrying only a format index, used as a test fixture. -/
def idxSettings (i : Int) : smCameraSettings :=
  { lens_params := none, approx_fov_deg := none, format_index := some i }

/-- A process state with exactly one Open PointGrey session, used as a test
fixture. -/
def stOnePtg : ProcState :=
  { nextSid := 1,
    openSessions := [{ sid := 0, ctype := smCameraType.SM_API_CAMERA_TYPE_PTGREY }] }

lemma scanCount_eq_length (ps : List (Except Unit (List smCameraInfo))) :
    scanCount ps = ((okInfos ps).length : Int) := by
  induction ps with
  | nil => rfl
  | cons p ps ih =>
    cases p with
    | ok l => simp [scanCount, okInfos, ih]
    | error e => simp [scanCount, okInfos, ih]

lemma mem_okInfos (ps : List (Except Unit (List smCameraInfo)))
    (c : smCameraInfo) (hc : c ∈ okInfos ps) :
    ∃ l, Except.ok l ∈ ps ∧ c ∈ l := by
  induction ps with
  | nil => simp [okInfos] at hc
  | cons p ps ih =>
    cases p with
    | ok l =>
      simp only [okInfos, List.mem_append] at hc
      rcases hc with h | h
      · exact ⟨l, List.mem_cons_self _ _, h⟩
      · obtain ⟨l2, hl2, hcl2⟩ := ih h
        exact ⟨l2, List.mem_cons_of_mem _ hl2, hcl2⟩
    | error e =>
      obtain ⟨l2, hl2, hcl2⟩ := ih hc
      exact ⟨l2, List.mem_cons_of_mem _ hl2, hcl2⟩

/-- C10: the default frame-FIFO depth constant `SM_API_CAMERA_DEFAULT_FIFO_LEN`
equals exactly 2147483647, the maximum 32-bit signed integer (2^31 - 1), so
the default bounded queue depth is the largest representable `int`. -/
theorem default_fifo_len_is_int_max :
    SM_API_CAMERA_DEFAULT_FIFO_LEN = 2147483647 ∧
    SM_API_CAMERA_DEFAULT_FIFO_LEN = 2 ^ 31 - 1 := by
  constructor
  · rfl
  · norm_num [SM_API_CAMERA_DEFAULT_FIFO_LEN]

/-- C7: for every discovery scan, the `num_cameras` count of the returned
descriptor list equals the length of its descriptor sequence.  The returned
list is a frozen snapshot (the model has no mutation on it), so the equality
holds for the list throughout its lifetime. -/
theorem discovery_count_matches_length
    (probes : List (Except Unit (List smCameraInfo))) :
    (smCameraCreateInfoList probes).num_cameras
      = ((smCameraCreateInfoList probes).info.length : Int) :=
  scanCount_eq_length probes

/-- C8: for every discovery scan whose backend probes return descriptors with
the documented count/array representation (`num_formats` equals the length of
the `formats` array), the returned list has a null (empty) descriptor array
exactly when `num_cameras` is 0, and each descriptor has a null (empty)
formats array exactly when its `num_formats` is 0. -/
theorem null_array_iff_zero_count
    (probes : List (Except Unit (List smCameraInfo)))
    (hwf : ∀ l, Except.ok l ∈ probes →
      ∀ c ∈ l, c.num_formats = (c.formats.length : Int)) :
    ((smCameraCreateInfoList probes).info = []
        ↔ (smCameraCreateInfoList probes).num_cameras = 0) ∧
    ∀ c ∈ (smCameraCreateInfoList probes).info,
      (c.formats = [] ↔ c.num_formats = 0) := by
  constructor
  · show okInfos probes = [] ↔ scanCount probes = 0
    rw [scanCount_eq_length]
    constructor
    · intro h
      rw [h]
      rfl
    · intro h
      have hlen : (okInfos probes).length = 0 := by exact_mod_cast h
      exact List.length_eq_zero.mp hlen
  · intro c hc
    obtain ⟨l, hl, hcl⟩ := mem_okInfos probes c hc
    have hn := hwf l hl c hcl
    rw [hn]
    constructor
    · intro h
      rw [h]
      rfl
    · intro h
      have hlen : c.formats.length = 0 := by exact_mod_cast h
      exact List.length_eq_zero.mp hlen

/-- Witness for C8 at a concrete one-camera scan. -/
theorem null_array_iff_zero_count_witness :
    (((smCameraCreateInfoList [Except.ok [testInfo]]).info = []
        ↔ (smCameraCreateInfoList [Except.ok [testInfo]]).num_cameras = 0) ∧
     ∀ c ∈ (smCameraCreateInfoList [Except.ok [testInfo]]).info,
       (c.formats = [] ↔ c.num_formats = 0)) :=
  null_array_iff_zero_count [Except.ok [testInfo]] (by
    intro l hl c hc
    simp only [List.mem_singleton, Except.ok.injEq] at hl
    subst hl
    simp only [List.mem_singleton] at hc
    subst hc
    rfl)

lemma resolveSettings_none_fov (info : smCameraInfo) (s : smCameraSettings)
    (h : s.approx_fov_deg = none) :
    resolveSettings info s =
      match resolveFormatIndex info s with
      | Except.ok i => Except.ok { lens := resolveLens s, format_index := i }
      | Except.error e => Except.error e := by
  unfold resolveSettings
  rw [h]

lemma resolveSettings_some_fov_ok (info : smCameraInfo) (s : smCameraSettings)
    (v : Int) (h : s.approx_fov_deg = some v) (h1 : 1 ≤ v) (h2 : v ≤ 179) :
    resolveSettings info s =
      match resolveFormatIndex info s with
      | Except.ok i => Except.ok { lens := resolveLens s, format_index := i }
      | Except.error e => Except.error e := by
  unfold resolveSettings
  rw [h]
  exact if_pos ⟨h1, h2⟩

lemma resolveSettings_some_fov_bad (info : smCameraInfo) (s : smCameraSettings)
    (v : Int) (h : s.approx_fov_deg = some v) (hbad : v < 1 ∨ 179 < v) :
    resolveSettings info s = Except.error smApiError.invalid_parameter := by
  unfold resolveSettings
  rw [h]
  exact if_neg (by omega)

/-- C3: for settings whose approximate field-of-view is present, resolution
fails with invalid-parameter exactly when the value lies outside [1,179]
degrees: an out-of-range value always fails, and an in-range value (the
boundaries 1 and 179 included) never fails for the field-of-view — resolution
then succeeds whenever format selection does. -/
theorem fov_range_validation (info : smCameraInfo) (s : smCameraSettings)
    (v : Int) (hfov : s.approx_fov_deg = some v) :
    ((v < 1 ∨ 179 < v) →
      resolveSettings info s = Except.error smApiError.invalid_parameter) ∧
    (1 ≤ v → v ≤ 179 → (∃ i, resolveFormatIndex info s = Except.ok i) →
      ∃ r, resolveSettings info s = Except.ok r) := by
  refine ⟨fun hbad => resolveSettings_some_fov_bad info s v hfov hbad, ?_⟩
  rintro h1 h2 ⟨i, hi⟩
  rw [resolveSettings_some_fov_ok info s v hfov h1 h2, hi]
  exact ⟨_, rfl⟩

/-- Witness for C3: field-of-view 180 is rejected with invalid-parameter,
the boundary values 1 and 179 are accepted. -/
theorem fov_range_validation_witness :
    resolveSettings testInfo (fovSettings 180)
        = Except.error smApiError.invalid_parameter ∧
    (∃ r, resolveSettings testInfo (fovSettings 1) = Except.ok r) ∧
    (∃ r, resolveSettings testInfo (fovSettings 179) = Except.ok r) :=
  ⟨(fov_range_validation testInfo (fovSettings 180) 180 rfl).1
      (Or.inr (by norm_num)),
   (fov_range_validation testInfo (fovSettings 1) 1 rfl).2
      (by norm_num) (by norm_num) ⟨0, rfl⟩,
   (fov_range_validation testInfo (fovSettings 179) 179 rfl).2
      (by norm_num) (by norm_num) ⟨0, rfl⟩⟩

/-- C2: for every descriptor and settings whose resolution succeeds, the lens
model is chosen with this precedence: a present lens override is used; with
no override, a present approximate field-of-view synthesizes the lens model;
with neither present, the backend default lens model is synthesized. -/
theorem lens_precedence (info : smCameraInfo) (s : smCameraSettings)
    (r : ResolvedSettings) (h : resolveSettings info s = Except.ok r) :
    (∀ lp, s.lens_params = some lp → r.lens = LensChoice.override lp) ∧
    (s.lens_params = none → ∀ v, s.approx_fov_deg = some v →
      r.lens = LensChoice.fromFov v) ∧
    (s.lens_params = none → s.approx_fov_deg = none →
      r.lens = LensChoice.backendDefault) := by
  have hlens : r.lens = resolveLens s := by
    cases hv : s.approx_fov_deg with
    | none =>
      rw [resolveSettings_none_fov info s hv] at h
      cases hfi : resolveFormatIndex info s with
      | ok i =>
        rw [hfi] at h
        cases h
        rfl
      | error e =>
        rw [hfi] at h
        cases h
    | some v =>
      by_cases hb : 1 ≤ v ∧ v ≤ 179
      · rw [resolveSettings_some_fov_ok info s v hv hb.1 hb.2] at h
        cases hfi : resolveFormatIndex info s with
        | ok i =>
          rw [hfi] at h
          cases h
          rfl
        | error e =>
          rw [hfi] at h
          cases h
      · rw [resolveSettings_some_fov_bad info s v hv (by omega)] at h
        cases h
  refine ⟨?_, ?_, ?_⟩
  · intro lp hlp
    rw [hlens]
    unfold resolveLens
    rw [hlp]
  · intro hnone v hv
    rw [hlens]
    unfold resolveLens
    rw [hnone, hv]
  · intro hnone hv
    rw [hlens]
    unfold resolveLens
    rw [hnone, hv]

/-- Witness for C2: the three precedence branches at concrete settings. -/
theorem lens_precedence_witness :
    (⟨LensChoice.override testLens, 0⟩ : ResolvedSettings).lens
        = LensChoice.override testLens ∧
    (⟨LensChoice.fromFov 90, 0⟩ : ResolvedSettings).lens
        = LensChoice.fromFov 90 ∧
    (⟨LensChoice.backendDefault, 0⟩ : ResolvedSettings).lens
        = LensChoice.backendDefault :=
  ⟨(lens_precedence testInfo
      { lens_params := some testLens, approx_fov_deg := none, format_index := none }
      ⟨LensChoice.override testLens, 0⟩ rfl).1 testLens rfl,
   (lens_precedence testInfo (fovSettings 90)
      ⟨LensChoice.fromFov 90, 0⟩ rfl).2.1 rfl 90 rfl,
   (lens_precedence testInfo noSettings
      ⟨LensChoice.backendDefault, 0⟩ rfl).2.2 rfl rfl⟩

/-- C4: with any present field-of-view in range, format selection uses a
present format index exactly when it lies in `[0, num_formats-1]` (otherwise
resolution fails with invalid-parameter), and an absent format index falls
back to the descriptor's preferred-format index. -/
theorem format_index_selection (info : smCameraInfo) (s : smCameraSettings)
    (hfov : ∀ v, s.approx_fov_deg = some v → 1 ≤ v ∧ v ≤ 179) :
    (∀ i, s.format_index = some i →
      ((0 ≤ i ∧ i < info.num_formats) →
        ∃ r, resolveSettings info s = Except.ok r ∧ r.format_index = i) ∧
      (¬(0 ≤ i ∧ i < info.num_formats) →
        resolveSettings info s = Except.error smApiError.invalid_parameter)) ∧
    (s.format_index = none → 0 < info.num_formats →
      ∃ r, resolveSettings info s = Except.ok r ∧
        r.format_index = info.preferred_format_index) := by
  have hred : resolveSettings info s =
      match resolveFormatIndex info s with
      | Except.ok i => Except.ok { lens := resolveLens s, format_index := i }
      | Except.error e => Except.error e := by
    cases hv : s.approx_fov_deg with
    | none => exact resolveSettings_none_fov info s hv
    | some v =>
      obtain ⟨h1, h2⟩ := hfov v hv
      exact resolveSettings_some_fov_ok info s v hv h1 h2
  constructor
  · intro i hi
    constructor
    · intro hin
      have hfi : resolveFormatIndex info s = Except.ok i := by
        unfold resolveFormatIndex
        rw [hi]
        exact if_pos hin
      rw [hred, hfi]
      exact ⟨_, rfl, rfl⟩
    · intro hout
      have hfi : resolveFormatIndex info s
          = Except.error smApiError.invalid_parameter := by
        unfold resolveFormatIndex
        rw [hi]
        exact if_neg hout
      rw [hred, hfi]
  · intro hnone hpos
    have hfi : resolveFormatIndex info s = Except.ok info.preferred_format_index := by
      unfold resolveFormatIndex
      rw [hnone]
      exact if_pos hpos
    rw [hred, hfi]
    exact ⟨_, rfl, rfl⟩

/-- Witness for C4: index 0 of a one-format camera is used, index 5 is
rejected with invalid-parameter, and an absent index falls back to the
preferred-format index. -/
theorem format_index_selection_witness :
    (∃ r, resolveSettings testInfo (idxSettings 0) = Except.ok r ∧
        r.format_index = 0) ∧
    resolveSettings testInfo (idxSettings 5)
        = Except.error smApiError.invalid_parameter ∧
    (∃ r, resolveSettings testInfo noSettings = Except.ok r ∧
        r.format_index = testInfo.preferred_format_index) :=
  ⟨((format_index_selection testInfo (idxSettings 0)
      (by intro v h; exact absurd h (by simp [idxSettings]))).1 0 rfl).1
      (by constructor <;> decide),
   ((format_index_selection testInfo (idxSettings 5)
      (by intro v h; exact absurd h (by simp [idxSettings]))).1 5 rfl).2
      (by intro h; exact absurd h.2 (by decide)),
   (format_index_selection testInfo noSettings
      (by intro v h; exact absurd h (by simp [noSettings]))).2 rfl (by decide)⟩

/-- C5: for a descriptor whose format-count is 0, opening without an explicit
format index fails with invalid-parameter, and the preferred-format index is
never consulted — the outcome is the same for every value of
`preferred_format_index`. -/
theorem zero_formats_requires_index (info : smCameraInfo) (s : smCameraSettings)
    (h0 : info.num_formats = 0) (hnone : s.format_index = none) :
    resolveSettings info s = Except.error smApiError.invalid_parameter ∧
    ∀ p, resolveSettings { info with preferred_format_index := p } s
      = Except.error smApiError.invalid_parameter := by
  have key : ∀ j : smCameraInfo, j.num_formats = 0 →
      resolveSettings j s = Except.error smApiError.invalid_parameter := by
    intro j hj
    have hfi : resolveFormatIndex j s = Except.error smApiError.invalid_parameter := by
      unfold resolveFormatIndex
      rw [hnone]
      exact if_neg (by omega)
    cases hv : s.approx_fov_deg with
    | none => rw [resolveSettings_none_fov j s hv, hfi]
    | some v =>
      by_cases hb : 1 ≤ v ∧ v ≤ 179
      · rw [resolveSettings_some_fov_ok j s v hv hb.1 hb.2, hfi]
      · exact resolveSettings_some_fov_bad j s v hv (by omega)
  exact ⟨key info h0, fun p => key { info with preferred_format_index := p } h0⟩

/-- Witness for C5 at a concrete zero-format descriptor. -/
theorem zero_formats_requires_index_witness :
    resolveSettings testInfoNoFormats noSettings
        = Except.error smApiError.invalid_parameter ∧
    resolveSettings { testInfoNoFormats with preferred_format_index := 7 } noSettings
        = Except.error smApiError.invalid_parameter :=
  ⟨(zero_formats_requires_index testInfoNoFormats noSettings rfl rfl).1,
   (zero_formats_requires_index testInfoNoFormats noSettings rfl rfl).2 7⟩

lemma smCameraCreate_ok_shape (st : ProcState) (info : smCameraInfo)
    (s : smCameraSettings) (st2 : ProcState) (k : Nat)
    (hm : smCameraCreate st info s = Except.ok (st2, k)) :
    st2.openSessions = { sid := st.nextSid, ctype := info.type } :: st.openSessions ∧
    ¬(info.type = smCameraType.SM_API_CAMERA_TYPE_PTGREY ∧ 0 < ptgreyOpenCount st) := by
  unfold smCameraCreate at hm
  by_cases hg : info.type = smCameraType.SM_API_CAMERA_TYPE_PTGREY
      ∧ 0 < ptgreyOpenCount st
  · rw [if_pos hg] at hm
    cases hm
  · rw [if_neg hg] at hm
    cases hr : resolveSettings info s with
    | error e =>
      rw [hr] at hm
      cases hm
    | ok r =>
      rw [hr] at hm
      cases hm
      exact ⟨rfl, hg⟩

lemma ptgreyOpenCount_exec_le (st : ProcState) (c : Cmd)
    (h : ptgreyOpenCount st ≤ 1) : ptgreyOpenCount (exec st c) ≤ 1 := by
  cases c with
  | destroy sid =>
    show ptgreyOpenCount (smCameraDestroy st sid) ≤ 1
    simp only [ptgreyOpenCount, smCameraDestroy] at h ⊢
    rw [List.filter_comm]
    exact le_trans (List.length_filter_le _ _) h
  | create info s =>
    show ptgreyOpenCount (match smCameraCreate st info s with
      | Except.ok (st2, _) => st2
      | Except.error _ => st) ≤ 1
    cases hm : smCameraCreate st info s with
    | error e => exact h
    | ok p =>
      obtain ⟨st2, k⟩ := p
      obtain ⟨hshape, hg⟩ := smCameraCreate_ok_shape st info s st2 k hm
      show ptgreyOpenCount st2 ≤ 1
      unfold ptgreyOpenCount at h ⊢
      rw [hshape]
      by_cases ht : info.type = smCameraType.SM_API_CAMERA_TYPE_PTGREY
      · have hc0 : (st.openSessions.filter
            (fun t => t.ctype = smCameraType.SM_API_CAMERA_TYPE_PTGREY)).length = 0 := by
          by_contra hne
          exact hg ⟨ht, Nat.pos_of_ne_zero (fun hz => hne hz)⟩
        simp only [List.filter_cons, ht]
        rw [if_pos (by rfl), List.length_cons]
        omega
      · simp only [List.filter_cons]
        rw [if_neg (by simp only [decide_eq_true_eq]; exact ht)]
        exact h

lemma ptgrey_invariant_run (cmds : List Cmd) :
    ∀ st, ptgreyOpenCount st ≤ 1 → ptgreyOpenCount (cmds.foldl exec st) ≤ 1 := by
  induction cmds with
  | nil => intro st h; exact h
  | cons c cs ih =>
    intro st h
    exact ih (exec st c) (ptgreyOpenCount_exec_le st c h)

/-- C6: at most one PointGrey (industrial-category) session is Open in every
reachable process-wide state; an attempt to open a second one while one is
Open fails fast with resource-exhausted; and after closing the open PointGrey
session a subsequent open of that category succeeds (given settings that
resolve). -/
theorem ptgrey_singleton_invariant :
    (∀ cmds : List Cmd, ptgreyOpenCount (run cmds) ≤ 1) ∧
    (∀ (st : ProcState) (info : smCameraInfo) (s : smCameraSettings),
      info.type = smCameraType.SM_API_CAMERA_TYPE_PTGREY →
      0 < ptgreyOpenCount st →
      smCameraCreate st info s = Except.error smApiError.resource_exhausted) ∧
    (∀ (st : ProcState) (info : smCameraInfo) (s : smCameraSettings) (k : Nat),
      info.type = smCameraType.SM_API_CAMERA_TYPE_PTGREY →
      (∀ t ∈ st.openSessions,
        t.ctype = smCameraType.SM_API_CAMERA_TYPE_PTGREY → t.sid = k) →
      (∃ r, resolveSettings info s = Except.ok r) →
      ∃ st2 k2, smCameraCreate (smCameraDestroy st k) info s = Except.ok (st2, k2)) := by
  refine ⟨?_, ?_, ?_⟩
  · intro cmds
    exact ptgrey_invariant_run cmds initState (by decide)
  · intro st info s htype hopen
    unfold smCameraCreate
    rw [if_pos ⟨htype, hopen⟩]
  · rintro st info s k htype hall ⟨r, hr⟩
    have hc0 : ptgreyOpenCount (smCameraDestroy st k) = 0 := by
      unfold ptgreyOpenCount smCameraDestroy
      rw [List.length_eq_zero, List.filter_eq_nil_iff]
      intro t ht
      rw [List.mem_filter] at ht
      obtain ⟨hmem, hsid⟩ := ht
      simp only [decide_eq_true_eq] at hsid ⊢
      intro hptg
      exact hsid (hall t hmem hptg)
    unfold smCameraCreate
    rw [if_neg (by omega), hr]
    exact ⟨_, _, rfl⟩

/-- Witness for C6: a second PointGrey open on a one-PointGrey state fails
with resource-exhausted, reopening after the close succeeds, and a concrete
double-open command run keeps the invariant. -/
theorem ptgrey_singleton_invariant_witness :
    ptgreyOpenCount (run [Cmd.create testInfoPtg noSettings,
        Cmd.create testInfoPtg noSettings]) ≤ 1 ∧
    smCameraCreate stOnePtg testInfoPtg noSettings
        = Except.error smApiError.resource_exhausted ∧
    ∃ st2 k2, smCameraCreate (smCameraDestroy stOnePtg 0) testInfoPtg noSettings
        = Except.ok (st2, k2) :=
  ⟨ptgrey_singleton_invariant.1
      [Cmd.create testInfoPtg noSettings, Cmd.create testInfoPtg noSettings],
   ptgrey_singleton_invariant.2.1 stOnePtg testInfoPtg noSettings rfl (by decide),
   ptgrey_singleton_invariant.2.2 stOnePtg testInfoPtg noSettings 0 rfl
      (by
        intro t ht hptg
        simp only [stOnePtg, List.mem_singleton] at ht
        rw [ht])
      ⟨⟨LensChoice.backendDefault, 0⟩, rfl⟩⟩

lemma noDrop_shape (es : List BackendEvent) (hnd : BackendEvent.drop ∉ es) :
    es = (eventTimes es).map BackendEvent.capture := by
  induction es with
  | nil => rfl
  | cons e es ih =>
    cases e with
    | capture t =>
      have hnd2 : BackendEvent.drop ∉ es :=
        fun hmem => hnd (List.mem_cons_of_mem _ hmem)
      show BackendEvent.capture t :: es
        = (t :: eventTimes es).map BackendEvent.capture
      rw [List.map_cons, ← ih hnd2]
    | drop => exact absurd (List.mem_cons_self _ _) hnd

lemma produceFrames_map_chain : ∀ (ts : List Nat) (n : Nat),
    List.Chain' (fun a b => a ≤ b) ts →
    List.Chain' FrameStep (produceFrames n (ts.map BackendEvent.capture))
  | [], _, _ => List.chain'_nil
  | [t], n, _ => by
    show List.Chain' FrameStep
      [{ image_handle := n, frame_num := n % UINT_MOD, time := t }]
    exact List.chain'_singleton _
  | t1 :: t2 :: rest, n, h => by
    obtain ⟨h12, htail⟩ := List.chain'_cons.mp h
    have ih := produceFrames_map_chain (t2 :: rest) (n + 1) htail
    show List.Chain' FrameStep
      ({ image_handle := n, frame_num := n % UINT_MOD, time := t1 } ::
       { image_handle := n + 1, frame_num := (n + 1) % UINT_MOD, time := t2 } ::
       produceFrames (n + 2) (rest.map BackendEvent.capture))
    rw [List.chain'_cons]
    refine ⟨⟨?_, h12⟩, ih⟩
    show (n + 1) % UINT_MOD = (n % UINT_MOD + 1) % UINT_MOD
    simp only [UINT_MOD]
    omega

/-- C1: for every open session, absent any signalled drop, consecutive
produced frames have frame numbers stepping by exactly 1 (in the 32-bit
unsigned arithmetic of `frame_num`), and their capture timestamps are
monotonically non-decreasing, given that the backend delivers exposure
timestamps in non-decreasing order. -/
theorem frame_numbers_consecutive (n : Nat) (es : List BackendEvent)
    (hnd : BackendEvent.drop ∉ es)
    (hmono : List.Chain' (fun a b => a ≤ b) (eventTimes es)) :
    List.Chain' FrameStep (produceFrames n es) := by
  rw [noDrop_shape es hnd]
  exact produceFrames_map_chain (eventTimes es) n hmono

/-- Witness for C1 at a concrete drop-free capture sequence. -/
theorem frame_numbers_consecutive_witness :
    List.Chain' FrameStep (produceFrames 5
      [BackendEvent.capture 10, BackendEvent.capture 10, BackendEvent.capture 25]) :=
  frame_numbers_consecutive 5
    [BackendEvent.capture 10, BackendEvent.capture 10, BackendEvent.capture 25]
    (by decide)
    (by
      show List.Chain' (fun a b => a ≤ b) [10, 10, 25]
      rw [List.chain'_cons]
      refine ⟨by norm_num, ?_⟩
      rw [List.chain'_cons]
      exact ⟨by norm_num, List.chain'_singleton _⟩)

lemma produceFrames_mem_lt : ∀ (es : List BackendEvent) (n : Nat)
    (f : smCameraVideoFrame), f ∈ produceFrames n es → f.frame_num < UINT_MOD
  | [], n, f, h => by
    rw [show produceFrames n [] = [] from rfl] at h
    cases h
  | BackendEvent.capture t :: es, n, f, h => by
    rw [show produceFrames n (BackendEvent.capture t :: es)
        = { image_handle := n, frame_num := n % UINT_MOD, time := t }
          :: produceFrames (n + 1) es from rfl] at h
    rcases List.mem_cons.mp h with h1 | h2
    · rw [h1]
      show n % UINT_MOD < UINT_MOD
      exact Nat.mod_lt _ (by norm_num [UINT_MOD])
    · exact produceFrames_mem_lt es (n + 1) f h2
  | BackendEvent.drop :: es, n, f, h => produceFrames_mem_lt es (n + 1) f h

lemma produceFrames_replicate (t : Nat) : ∀ (k n : Nat),
    (produceFrames n (List.replicate k (BackendEvent.capture t))).map
        (fun f => f.frame_num)
      = (List.range k).map (fun i => (n + i) % UINT_MOD)
  | 0, _ => rfl
  | k + 1, n => by
    rw [List.replicate_succ, List.range_succ_eq_map]
    show (n % UINT_MOD)
        :: (produceFrames (n + 1) (List.replicate k (BackendEvent.capture t))).map
            (fun f => f.frame_num)
      = (n % UINT_MOD)
        :: (List.map Nat.succ (List.range k)).map (fun i => (n + i) % UINT_MOD)
    rw [produceFrames_replicate t k (n + 1), List.map_map]
    congr 1
    apply List.map_congr_left
    intro i _
    show (n + 1 + i) % UINT_MOD = (n + Nat.succ i) % UINT_MOD
    congr 1
    omega

/-- C9: `frame_num` is a 32-bit unsigned integer, so every produced frame
number lies below 2^32 and frame-number arithmetic is modulo 2^32: a session
whose counter starts at origin `n` and produces 2^32 + 1 frames ends with the
same frame number it started with — the counter has wrapped back past its
origin, so strict increase can only hold modulo 2^32. -/
theorem frame_num_wraps_mod_2_32 :
    (∀ (n : Nat) (es : List BackendEvent) (f : smCameraVideoFrame),
        f ∈ produceFrames n es → f.frame_num < UINT_MOD) ∧
    (∀ n t : Nat, n < UINT_MOD →
      ((produceFrames n (List.replicate (UINT_MOD + 1) (BackendEvent.capture t))).map
          (fun f => f.frame_num)).head? = some n ∧
      ((produceFrames n (List.replicate (UINT_MOD + 1) (BackendEvent.capture t))).map
          (fun f => f.frame_num)).getLast? = some n) := by
  constructor
  · intro n es f h
    exact produceFrames_mem_lt es n f h
  · intro n t hn
    rw [produceFrames_replicate t (UINT_MOD + 1) n]
    constructor
    · simp only [List.range_succ_eq_map, List.map_cons, List.head?_cons]
      rw [Nat.add_zero, Nat.mod_eq_of_lt hn]
    · simp only [List.range_succ, List.map_append, List.map_cons, List.map_nil,
        List.getLast?_concat]
      rw [Nat.add_mod_right, Nat.mod_eq_of_lt hn]

/-- Witness for C9: a concrete frame number is below 2^32, and the
wrap-around conclusion instantiated at origin 42. -/
theorem frame_num_wraps_mod_2_32_witness :
    ({ image_handle := 0, frame_num := 0, time := 3 } : smCameraVideoFrame).frame_num
        < UINT_MOD ∧
    (((produceFrames 42 (List.replicate (UINT_MOD + 1) (BackendEvent.capture 7))).map
        (fun f => f.frame_num)).head? = some 42 ∧
     ((produceFrames 42 (List.replicate (UINT_MOD + 1) (BackendEvent.capture 7))).map
        (fun f => f.frame_num)).getLast? = some 42) :=
  ⟨frame_num_wraps_mod_2_32.1 0 [BackendEvent.capture 3]
      { image_handle := 0, frame_num := 0, time := 3 } (by decide),
   frame_num_wraps_mod_2_32.2 42 7 (by decide)⟩
